import Mathlib

/-
  Verification of the s3-check permission prober (Go, package `checker`).

  The Go source shells out to the AWS CLI (or the AWS SDK) for every external
  step; each step yields a success/failure flag plus the combined output text,
  which the checks classify by substring matching.  We embed each check as a
  pure function of an environment record holding the outcome of each external
  step the check may perform, in program order.  A check produces a verdict
  string ("OK" / "DENIED"), the list of stderr diagnostic lines it would print
  (verbose-gated), and the ordered trace of S3 operations it attempted.
-/

namespace S3Check

/-- Outcome of one external sub-step: `ok` mirrors `err == nil` in Go, and
`output` is the combined output (used as error text when `ok = false`, and as
the response body when `ok = true`). -/
structure CmdResult where
  ok : Bool
  output : String
  deriving Repr, DecidableEq

/-- Does the pattern occur at the head of the character list? -/
def startsWithChars : List Char → List Char → Bool
  | [], _ => true
  | _ :: _, [] => false
  | p :: ps, c :: cs => p == c && startsWithChars ps cs

/-- Does the pattern occur anywhere in the character list? -/
def occursIn (pat : List Char) : List Char → Bool
  | [] => pat.isEmpty
  | c :: cs => startsWithChars pat (c :: cs) || occursIn pat cs

/-- Embedding of Go `strings.Contains s pat`. -/
def goContains (s pat : String) : Bool :=
  occursIn pat.toList s.toList

/-- Embedding of Go `strings.TrimSpace`. -/
def goTrim (s : String) : String :=
  String.mk (((s.toList.dropWhile Char.isWhitespace).reverse.dropWhile Char.isWhitespace).reverse)

/-- The error-text test used by every check:
`strings.Contains(errStr, "AccessDenied") || strings.Contains(errStr, "403") ||
strings.Contains(errStr, "Forbidden")`. -/
def isAccessDenied (errStr : String) : Bool :=
  goContains errStr "AccessDenied" || goContains errStr "403" || goContains errStr "Forbidden"

/-- The not-found test used by the two GET checks:
`strings.Contains(errStr, "NoSuchKey") || strings.Contains(errStr, "404")`. -/
def isNotFound (errStr : String) : Bool :=
  goContains errStr "NoSuchKey" || goContains errStr "404"

/-- The public-access-block response test: any of the four flags rendered as
`"<Flag>": true` in the JSON output of `get-public-access-block`. -/
def pabBlocked (pabStr : String) : Bool :=
  goContains pabStr "\"BlockPublicAcls\": true" ||
  goContains pabStr "\"BlockPublicPolicy\": true" ||
  goContains pabStr "\"IgnorePublicAcls\": true" ||
  goContains pabStr "\"RestrictPublicBuckets\": true"

/-- The bucket-policy substring heuristic of `checkBucketPolicyForAnonGet`:
wildcard principal together with a get-object action pattern. -/
def policyAllowsAnonGet (policyStr : String) : Bool :=
  (goContains policyStr "\"Principal\":\"*\"" ||
   goContains policyStr "\"Principal\":\x7b\"AWS\":\"*\"\x7d") &&
  (goContains policyStr "\"s3:GetObject\"" ||
   goContains policyStr "\"s3:Get*\"")

/-- The external S3 operations a check can attempt. -/
inductive S3Action where
  | getBucketAcl
  | putBucketAcl
  | getPublicAccessBlock
  | headObjectAnon
  | headObjectAuth
  | putObjectAnon
  | putObjectAuth
  | deleteObjectAnon
  | deleteObjectAuth
  | getBucketPolicy
  deriving Repr, DecidableEq

/-- Result of running one check: the verdict string returned, the stderr
diagnostic lines printed, and the ordered trace of S3 operations attempted. -/
structure CheckOut where
  verdict : String
  log : List String
  actions : List S3Action
  deriving Repr, DecidableEq

/-- The verbose-gated stderr line of the public-access-block pre-check:
printed only when the fetch failed, verbose is on, and the error is not
`NoSuchPublicAccessBlockConfiguration`. -/
def pabLogLine (tag b : String) (pab : CmdResult) (verbose : Bool) : List String :=
  if !pab.ok then
    if verbose && !(goContains pab.output "NoSuchPublicAccessBlockConfiguration") then
      ["[" ++ tag ++ "] " ++ b ++ " (public-access-block): " ++ pab.output]
    else []
  else []

/-- Environment of `checkGetACLWithContext`: one `get-bucket-acl` call. -/
structure GetAclEnv where
  getAcl : CmdResult
  deriving Repr, DecidableEq

/-- Embedding of `checkGetACLWithContext`. -/
def checkGetACLWithContext (verbose : Bool) (b : String) (env : GetAclEnv) : CheckOut :=
  if !env.getAcl.ok then
    let log := if verbose then ["[GET-ACL] " ++ b ++ ": " ++ env.getAcl.output] else []
    if isAccessDenied env.getAcl.output then
      { verdict := "DENIED", log := log, actions := [S3Action.getBucketAcl] }
    else
      { verdict := "DENIED", log := log, actions := [S3Action.getBucketAcl] }
  else
    { verdict := "OK", log := [], actions := [S3Action.getBucketAcl] }

/-- Environment of `checkPutACLWithContext`: `get-bucket-acl`, the temp-file
write of the fetched ACL, and `put-bucket-acl`. -/
structure PutAclEnv where
  getAcl : CmdResult
  writeTmp : CmdResult
  putAcl : CmdResult
  deriving Repr, DecidableEq

/-- Embedding of `checkPutACLWithContext`. -/
def checkPutACLWithContext (verbose : Bool) (b : String) (env : PutAclEnv) : CheckOut :=
  if !env.getAcl.ok then
    let log := if verbose then ["[PUT-ACL] " ++ b ++ " (get): " ++ env.getAcl.output] else []
    if isAccessDenied env.getAcl.output then
      { verdict := "DENIED", log := log, actions := [S3Action.getBucketAcl] }
    else
      { verdict := "DENIED", log := log, actions := [S3Action.getBucketAcl] }
  else if !env.writeTmp.ok then
    let log := if verbose then ["[PUT-ACL] " ++ b ++ " (write temp): " ++ env.writeTmp.output] else []
    { verdict := "DENIED", log := log, actions := [S3Action.getBucketAcl] }
  else if !env.putAcl.ok then
    let log := if verbose then ["[PUT-ACL] " ++ b ++ " (put): " ++ env.putAcl.output] else []
    if isAccessDenied env.putAcl.output then
      { verdict := "DENIED", log := log, actions := [S3Action.getBucketAcl, S3Action.putBucketAcl] }
    else
      { verdict := "DENIED", log := log, actions := [S3Action.getBucketAcl, S3Action.putBucketAcl] }
  else
    { verdict := "OK", log := [], actions := [S3Action.getBucketAcl, S3Action.putBucketAcl] }

/-- Environment of `checkBucketPolicyForAnonGet`: one `get-bucket-policy` call. -/
structure PolicyEnv where
  policy : CmdResult
  deriving Repr, DecidableEq

/-- Embedding of `checkBucketPolicyForAnonGet`. -/
def checkBucketPolicyForAnonGet (verbose : Bool) (b : String) (env : PolicyEnv) : CheckOut :=
  if !env.policy.ok then
    let log := if verbose then ["[ANON-GET] " ++ b ++ " (policy): " ++ env.policy.output] else []
    { verdict := "DENIED", log := log, actions := [S3Action.getBucketPolicy] }
  else if policyAllowsAnonGet env.policy.output then
    { verdict := "OK", log := [], actions := [S3Action.getBucketPolicy] }
  else
    { verdict := "DENIED", log := [], actions := [S3Action.getBucketPolicy] }

/-- Environment of `checkAnonGet`: `get-public-access-block`, the anonymous
`head-object`, and the fallback `get-bucket-policy`. -/
structure AnonGetEnv where
  pab : CmdResult
  headObj : CmdResult
  policy : CmdResult
  deriving Repr, DecidableEq

/-- Embedding of `checkAnonGet`. -/
def checkAnonGet (verbose : Bool) (b : String) (env : AnonGetEnv) : CheckOut :=
  let pLog := pabLogLine "ANON-GET" b env.pab verbose
  if env.pab.ok && pabBlocked env.pab.output then
    { verdict := "DENIED", log := pLog, actions := [S3Action.getPublicAccessBlock] }
  else if !env.headObj.ok then
    let hLog := if verbose then ["[ANON-GET] " ++ b ++ ": " ++ env.headObj.output] else []
    if isNotFound env.headObj.output then
      { verdict := "OK", log := pLog ++ hLog,
        actions := [S3Action.getPublicAccessBlock, S3Action.headObjectAnon] }
    else if isAccessDenied env.headObj.output then
      { verdict := "DENIED", log := pLog ++ hLog,
        actions := [S3Action.getPublicAccessBlock, S3Action.headObjectAnon] }
    else
      let fb := checkBucketPolicyForAnonGet verbose b { policy := env.policy }
      { verdict := fb.verdict, log := pLog ++ hLog ++ fb.log,
        actions := [S3Action.getPublicAccessBlock, S3Action.headObjectAnon] ++ fb.actions }
  else
    { verdict := "OK", log := pLog,
      actions := [S3Action.getPublicAccessBlock, S3Action.headObjectAnon] }

/-- Environment of `checkAuthGet`: one authenticated `head-object` call. -/
structure AuthGetEnv where
  headObj : CmdResult
  deriving Repr, DecidableEq

/-- Embedding of `checkAuthGet`. -/
def checkAuthGet (verbose : Bool) (b : String) (env : AuthGetEnv) : CheckOut :=
  if !env.headObj.ok then
    let log := if verbose then ["[AUTH-GET] " ++ b ++ ": " ++ env.headObj.output] else []
    if isNotFound env.headObj.output then
      { verdict := "OK", log := log, actions := [S3Action.headObjectAuth] }
    else if isAccessDenied env.headObj.output then
      { verdict := "DENIED", log := log, actions := [S3Action.headObjectAuth] }
    else
      { verdict := "DENIED", log := log, actions := [S3Action.headObjectAuth] }
  else
    { verdict := "OK", log := [], actions := [S3Action.headObjectAuth] }

/-- Environment of `checkAnonWrite`: `get-public-access-block`, the temp-file
payload write, and the anonymous `put-object`. -/
structure AnonWriteEnv where
  pab : CmdResult
  writeTmp : CmdResult
  putObj : CmdResult
  deriving Repr, DecidableEq

/-- Embedding of `checkAnonWrite`.  On a successful write the anonymous
cleanup `delete-object` is attempted with its outcome ignored. -/
def checkAnonWrite (verbose : Bool) (b : String) (env : AnonWriteEnv) : CheckOut :=
  let pLog := pabLogLine "ANON-WRITE" b env.pab verbose
  if env.pab.ok && pabBlocked env.pab.output then
    { verdict := "DENIED", log := pLog, actions := [S3Action.getPublicAccessBlock] }
  else if !env.writeTmp.ok then
    let log := if verbose then ["[ANON-WRITE] " ++ b ++ " (write temp): " ++ env.writeTmp.output] else []
    { verdict := "DENIED", log := pLog ++ log, actions := [S3Action.getPublicAccessBlock] }
  else if !env.putObj.ok then
    let log := if verbose then ["[ANON-WRITE] " ++ b ++ ": " ++ env.putObj.output] else []
    if isAccessDenied env.putObj.output then
      { verdict := "DENIED", log := pLog ++ log,
        actions := [S3Action.getPublicAccessBlock, S3Action.putObjectAnon] }
    else
      { verdict := "DENIED", log := pLog ++ log,
        actions := [S3Action.getPublicAccessBlock, S3Action.putObjectAnon] }
  else
    { verdict := "OK", log := pLog,
      actions := [S3Action.getPublicAccessBlock, S3Action.putObjectAnon, S3Action.deleteObjectAnon] }

/-- Environment of `checkAuthWrite`: the temp-file payload write and the
authenticated `put-object`. -/
structure AuthWriteEnv where
  writeTmp : CmdResult
  putObj : CmdResult
  deriving Repr, DecidableEq

/-- Embedding of `checkAuthWrite`.  On a successful write the authenticated
cleanup `delete-object` is attempted with its outcome ignored. -/
def checkAuthWrite (verbose : Bool) (b : String) (env : AuthWriteEnv) : CheckOut :=
  if !env.writeTmp.ok then
    let log := if verbose then ["[AUTH-WRITE] " ++ b ++ " (write temp): " ++ env.writeTmp.output] else []
    { verdict := "DENIED", log := log, actions := [] }
  else if !env.putObj.ok then
    let log := if verbose then ["[AUTH-WRITE] " ++ b ++ " (put): " ++ env.putObj.output] else []
    if isAccessDenied env.putObj.output then
      { verdict := "DENIED", log := log, actions := [S3Action.putObjectAuth] }
    else
      { verdict := "DENIED", log := log, actions := [S3Action.putObjectAuth] }
  else
    { verdict := "OK", log := [], actions := [S3Action.putObjectAuth, S3Action.deleteObjectAuth] }

/-- Environment of `checkAnonDel`: `get-public-access-block`, the temp-file
payload write, the authenticated `put-object` creating the test object, and
the anonymous `delete-object`. -/
structure AnonDelEnv where
  pab : CmdResult
  writeTmp : CmdResult
  putObj : CmdResult
  delObj : CmdResult
  deriving Repr, DecidableEq

/-- Embedding of `checkAnonDel`.  When the anonymous delete fails, a cleanup
authenticated `delete-object` is attempted (outcome ignored) before DENIED. -/
def checkAnonDel (verbose : Bool) (b : String) (env : AnonDelEnv) : CheckOut :=
  let pLog := pabLogLine "ANON-DEL" b env.pab verbose
  if env.pab.ok && pabBlocked env.pab.output then
    { verdict := "DENIED", log := pLog, actions := [S3Action.getPublicAccessBlock] }
  else if !env.writeTmp.ok then
    let log := if verbose then ["[ANON-DEL] " ++ b ++ " (write temp): " ++ env.writeTmp.output] else []
    { verdict := "DENIED", log := pLog ++ log, actions := [S3Action.getPublicAccessBlock] }
  else if !env.putObj.ok then
    let log := if verbose then ["[ANON-DEL] " ++ b ++ " (create test object): " ++ env.putObj.output] else []
    { verdict := "DENIED", log := pLog ++ log,
      actions := [S3Action.getPublicAccessBlock, S3Action.putObjectAuth] }
  else if !env.delObj.ok then
    let log := if verbose then ["[ANON-DEL] " ++ b ++ ": " ++ env.delObj.output] else []
    if isAccessDenied env.delObj.output then
      { verdict := "DENIED", log := pLog ++ log,
        actions := [S3Action.getPublicAccessBlock, S3Action.putObjectAuth,
                    S3Action.deleteObjectAnon, S3Action.deleteObjectAuth] }
    else
      { verdict := "DENIED", log := pLog ++ log,
        actions := [S3Action.getPublicAccessBlock, S3Action.putObjectAuth,
                    S3Action.deleteObjectAnon, S3Action.deleteObjectAuth] }
  else
    { verdict := "OK", log := pLog,
      actions := [S3Action.getPublicAccessBlock, S3Action.putObjectAuth,
                  S3Action.deleteObjectAnon] }

/-- Environment of `checkAuthDel`: the temp-file payload write, the
authenticated `put-object`, and the authenticated `delete-object`. -/
structure AuthDelEnv where
  writeTmp : CmdResult
  putObj : CmdResult
  delObj : CmdResult
  deriving Repr, DecidableEq

/-- Embedding of `checkAuthDel`. -/
def checkAuthDel (verbose : Bool) (b : String) (env : AuthDelEnv) : CheckOut :=
  if !env.writeTmp.ok then
    let log := if verbose then ["[AUTH-DEL] " ++ b ++ " (write temp): " ++ env.writeTmp.output] else []
    { verdict := "DENIED", log := log, actions := [] }
  else if !env.putObj.ok then
    let log := if verbose then ["[AUTH-DEL] " ++ b ++ " (put): " ++ env.putObj.output] else []
    if isAccessDenied env.putObj.output then
      { verdict := "DENIED", log := log, actions := [S3Action.putObjectAuth] }
    else
      { verdict := "DENIED", log := log, actions := [S3Action.putObjectAuth] }
  else if !env.delObj.ok then
    let log := if verbose then ["[AUTH-DEL] " ++ b ++ " (delete): " ++ env.delObj.output] else []
    if isAccessDenied env.delObj.output then
      { verdict := "DENIED", log := log, actions := [S3Action.putObjectAuth, S3Action.deleteObjectAuth] }
    else
      { verdict := "DENIED", log := log, actions := [S3Action.putObjectAuth, S3Action.deleteObjectAuth] }
  else
    { verdict := "OK", log := [], actions := [S3Action.putObjectAuth, S3Action.deleteObjectAuth] }

/-- The per-bucket result record, mirroring the Go `BucketResult` struct:
the bucket name and the eight verdict fields. -/
structure BucketResult where
  BucketName : String
  GetACL : String
  PutACL : String
  AnonGet : String
  AuthGet : String
  AnonWrite : String
  AuthWrite : String
  AnonDel : String
  AuthDel : String
  deriving Repr, DecidableEq

/-- The environments of all eight checks run for one bucket: the outcomes of
every external step each check may consult. -/
structure BucketEnvs where
  getAclEnv : GetAclEnv
  putAclEnv : PutAclEnv
  anonGetEnv : AnonGetEnv
  authGetEnv : AuthGetEnv
  anonWriteEnv : AnonWriteEnv
  authWriteEnv : AuthWriteEnv
  anonDelEnv : AnonDelEnv
  authDelEnv : AuthDelEnv
  deriving Repr, DecidableEq

/-- One bucket's pass inside `CheckBucketsStream`: all eight checks are run
(concurrently in Go, each writing its own field once) and the fully populated
`BucketResult` is assembled. -/
def checkBucket (verbose : Bool) (b : String) (env : BucketEnvs) : BucketResult :=
  { BucketName := b
    GetACL := (checkGetACLWithContext verbose b env.getAclEnv).verdict
    PutACL := (checkPutACLWithContext verbose b env.putAclEnv).verdict
    AnonGet := (checkAnonGet verbose b env.anonGetEnv).verdict
    AuthGet := (checkAuthGet verbose b env.authGetEnv).verdict
    AnonWrite := (checkAnonWrite verbose b env.anonWriteEnv).verdict
    AuthWrite := (checkAuthWrite verbose b env.authWriteEnv).verdict
    AnonDel := (checkAnonDel verbose b env.anonDelEnv).verdict
    AuthDel := (checkAuthDel verbose b env.authDelEnv).verdict }

/-- Observable driver events: a sink (callback) invocation with a completed
result, or the fixed inter-bucket `time.Sleep`. -/
inductive DriverEvent where
  | emit (r : BucketResult)
  | sleepMs (n : Nat)
  deriving Repr, DecidableEq

/-- Loop body of `CheckBucketsStream`, indexed by the position `i` in the
original input slice (the sleep condition is `i < len(bucketNames)-1`).
`envOf i` supplies the external-world outcomes for the bucket at position
`i`; duplicates are probed independently. -/
def streamAux (verbose : Bool) (envOf : Nat → BucketEnvs) (total : Nat) :
    Nat → List String → List DriverEvent
  | _, [] => []
  | i, b :: rest =>
    let name := goTrim b
    if name = "" then
      streamAux verbose envOf total (i + 1) rest
    else
      DriverEvent.emit (checkBucket verbose name (envOf i)) ::
        ((if i < total - 1 then [DriverEvent.sleepMs 100] else []) ++
          streamAux verbose envOf total (i + 1) rest)

/-- Embedding of `CheckBucketsStream`: trims each name, skips empties,
runs the eight checks, emits the result to the sink, sleeps 100 ms unless at
the last input position, and finally returns `nil` (modelled as `none`). -/
def CheckBucketsStream (verbose : Bool) (envOf : Nat → BucketEnvs)
    (bucketNames : List String) : List DriverEvent × Option String :=
  (streamAux verbose envOf bucketNames.length 0 bucketNames, none)

/-- The sequence of results handed to the sink, read off the driver events. -/
def emittedResults (events : List DriverEvent) : List BucketResult :=
  events.filterMap (fun e =>
    match e with
    | DriverEvent.emit r => some r
    | DriverEvent.sleepMs _ => none)

/-- Spec-side comparison function for the refinement claim: ALLOWED (`"OK"`)
iff every sub-step of the check succeeded, DENIED otherwise, ignoring all
error text. -/
def specAllStepsOkVerdict (steps : List Bool) : String :=
  if steps.all (fun x => x) then "OK" else "DENIED"

/-- A successful external step. -/
def okCmd : CmdResult := { ok := true, output := "" }

/-- A failed external step with the given combined output text. -/
def failCmd (msg : String) : CmdResult := { ok := false, output := msg }

/-- Concrete per-bucket environment in which every external step succeeds. -/
def allOkEnvs : BucketEnvs :=
  { getAclEnv := { getAcl := okCmd }
    putAclEnv := { getAcl := okCmd, writeTmp := okCmd, putAcl := okCmd }
    anonGetEnv := { pab := okCmd, headObj := okCmd, policy := okCmd }
    authGetEnv := { headObj := okCmd }
    anonWriteEnv := { pab := okCmd, writeTmp := okCmd, putObj := okCmd }
    authWriteEnv := { writeTmp := okCmd, putObj := okCmd }
    anonDelEnv := { pab := okCmd, writeTmp := okCmd, putObj := okCmd, delObj := okCmd }
    authDelEnv := { writeTmp := okCmd, putObj := okCmd, delObj := okCmd } }

/-- A successful public-access-block fetch whose JSON output has a flag set. -/
def blockedPab : CmdResult := { ok := true, output := "\"BlockPublicAcls\": true" }

/-- Sample ANON-GET environment with public access blocked. -/
def blockedAnonGetEnv : AnonGetEnv := { pab := blockedPab, headObj := okCmd, policy := okCmd }

/-- Sample ANON-WRITE environment with public access blocked. -/
def blockedAnonWriteEnv : AnonWriteEnv :=
  { pab := blockedPab, writeTmp := okCmd, putObj := okCmd }

/-- Sample ANON-DEL environment with public access blocked. -/
def blockedAnonDelEnv : AnonDelEnv :=
  { pab := blockedPab, writeTmp := okCmd, putObj := okCmd, delObj := okCmd }

/-- Sample AUTH-GET environment whose probe fails with a not-found response. -/
def notFoundAuthGetEnv : AuthGetEnv := { headObj := failCmd "404 Not Found" }

/-- Sample ANON-GET environment that reaches the bucket-policy fallback with a
policy granting wildcard-principal get-object access. -/
def fallbackAnonGetEnv : AnonGetEnv :=
  { pab := failCmd "no public access block configuration"
    headObj := failCmd "connection timed out"
    policy := { ok := true, output := "\"Principal\":\"*\" \"s3:GetObject\"" } }

/-- Sample ANON-DEL environment where creating the test object fails. -/
def createFailAnonDelEnv : AnonDelEnv :=
  { pab := failCmd "no public access block configuration"
    writeTmp := okCmd
    putObj := failCmd "AccessDenied on put"
    delObj := okCmd }

/-- Closed form of the GET-ACL verdict. -/
theorem getACL_verdict_eq (v : Bool) (b : String) (e : GetAclEnv) :
    (checkGetACLWithContext v b e).verdict = if e.getAcl.ok then "OK" else "DENIED" := by
  unfold checkGetACLWithContext
  split_ifs <;> simp_all

/-- Closed form of the PUT-ACL verdict. -/
theorem putACL_verdict_eq (v : Bool) (b : String) (e : PutAclEnv) :
    (checkPutACLWithContext v b e).verdict =
      if e.getAcl.ok && e.writeTmp.ok && e.putAcl.ok then "OK" else "DENIED" := by
  unfold checkPutACLWithContext
  split_ifs <;> simp_all

/-- Closed form of the bucket-policy fallback verdict. -/
theorem policyFallback_verdict_eq (v : Bool) (b : String) (e : PolicyEnv) :
    (checkBucketPolicyForAnonGet v b e).verdict =
      if e.policy.ok && policyAllowsAnonGet e.policy.output then "OK" else "DENIED" := by
  unfold checkBucketPolicyForAnonGet
  split_ifs <;> simp_all

/-- Closed form of the ANON-GET verdict. -/
theorem anonGet_verdict_eq (v : Bool) (b : String) (e : AnonGetEnv) :
    (checkAnonGet v b e).verdict =
      if e.pab.ok && pabBlocked e.pab.output then "DENIED"
      else if e.headObj.ok then "OK"
      else if isNotFound e.headObj.output then "OK"
      else if isAccessDenied e.headObj.output then "DENIED"
      else if e.policy.ok && policyAllowsAnonGet e.policy.output then "OK"
      else "DENIED" := by
  unfold checkAnonGet
  split_ifs <;> simp_all [policyFallback_verdict_eq]

/-- Closed form of the AUTH-GET verdict. -/
theorem authGet_verdict_eq (v : Bool) (b : String) (e : AuthGetEnv) :
    (checkAuthGet v b e).verdict =
      if e.headObj.ok then "OK"
      else if isNotFound e.headObj.output then "OK"
      else "DENIED" := by
  unfold checkAuthGet
  split_ifs <;> simp_all

/-- Closed form of the ANON-WRITE verdict. -/
theorem anonWrite_verdict_eq (v : Bool) (b : String) (e : AnonWriteEnv) :
    (checkAnonWrite v b e).verdict =
      if e.pab.ok && pabBlocked e.pab.output then "DENIED"
      else if e.writeTmp.ok && e.putObj.ok then "OK"
      else "DENIED" := by
  unfold checkAnonWrite
  split_ifs <;> simp_all

/-- Closed form of the AUTH-WRITE verdict. -/
theorem authWrite_verdict_eq (v : Bool) (b : String) (e : AuthWriteEnv) :
    (checkAuthWrite v b e).verdict =
      if e.writeTmp.ok && e.putObj.ok then "OK" else "DENIED" := by
  unfold checkAuthWrite
  split_ifs <;> simp_all

/-- Closed form of the ANON-DEL verdict. -/
theorem anonDel_verdict_eq (v : Bool) (b : String) (e : AnonDelEnv) :
    (checkAnonDel v b e).verdict =
      if e.pab.ok && pabBlocked e.pab.output then "DENIED"
      else if e.writeTmp.ok && e.putObj.ok && e.delObj.ok then "OK"
      else "DENIED" := by
  unfold checkAnonDel
  split_ifs <;> simp_all

/-- Closed form of the AUTH-DEL verdict. -/
theorem authDel_verdict_eq (v : Bool) (b : String) (e : AuthDelEnv) :
    (checkAuthDel v b e).verdict =
      if e.writeTmp.ok && e.putObj.ok && e.delObj.ok then "OK" else "DENIED" := by
  unfold checkAuthDel
  split_ifs <;> simp_all

/-- Non-recursive characterization of the driver loop: over the input tail
paired with its original indices, each entry contributes nothing when its
trimmed name is empty, and otherwise one sink emission followed by the
100 ms sleep exactly when the entry is not at the last input position. -/
theorem streamAux_eq (verbose : Bool) (envOf : Nat → BucketEnvs) (total : Nat) :
    ∀ (rest : List String) (i : Nat),
      streamAux verbose envOf total i rest =
        (List.enumFrom i rest).flatMap (fun p =>
          if goTrim p.2 = "" then []
          else DriverEvent.emit (checkBucket verbose (goTrim p.2) (envOf p.1)) ::
            (if p.1 < total - 1 then [DriverEvent.sleepMs 100] else []))
  | [], i => by simp [streamAux, List.enumFrom]
  | b :: rest, i => by
    simp only [streamAux, List.enumFrom, List.flatMap_cons]
    by_cases h : goTrim b = "" <;>
      simp [h, streamAux_eq verbose envOf total rest (i + 1)]

/-- The sink sees exactly the checked results of the entries whose trimmed
name is non-empty, in input order. -/
theorem emittedResults_streamAux (verbose : Bool) (envOf : Nat → BucketEnvs) (total : Nat) :
    ∀ (rest : List String) (i : Nat),
      emittedResults (streamAux verbose envOf total i rest) =
        ((List.enumFrom i rest).filter (fun p => !(goTrim p.2 == ""))).map
          (fun p => checkBucket verbose (goTrim p.2) (envOf p.1))
  | [], i => by simp [streamAux, List.enumFrom, emittedResults]
  | b :: rest, i => by
    simp only [streamAux, List.enumFrom, List.filter_cons]
    by_cases h : goTrim b = ""
    · simp [h, emittedResults_streamAux verbose envOf total rest (i + 1)]
    · have ih := emittedResults_streamAux verbose envOf total rest (i + 1)
      simp only [emittedResults] at ih ⊢
      by_cases hi : i < total - 1 <;> simp [h, hi, ih]

/-- Every result the driver emits is the output of `checkBucket` on some
trimmed name and some input position's environment. -/
theorem emit_mem_exists (verbose : Bool) (envOf : Nat → BucketEnvs)
    (names : List String) (r : BucketResult)
    (h : DriverEvent.emit r ∈ (CheckBucketsStream verbose envOf names).1) :
    ∃ j name, r = checkBucket verbose name (envOf j) := by
  have hr : r ∈ emittedResults (CheckBucketsStream verbose envOf names).1 :=
    List.mem_filterMap.mpr ⟨DriverEvent.emit r, h, rfl⟩
  rw [show (CheckBucketsStream verbose envOf names).1
        = streamAux verbose envOf names.length 0 names from rfl,
      emittedResults_streamAux] at hr
  rcases List.mem_map.mp hr with ⟨p, _, hpe⟩
  exact ⟨p.1, goTrim p.2, hpe.symm⟩

/-- The GET-ACL verdict is always one of the two verdict strings. -/
theorem getACL_verdict_binary (v : Bool) (b : String) (e : GetAclEnv) :
    (checkGetACLWithContext v b e).verdict = "OK" ∨
      (checkGetACLWithContext v b e).verdict = "DENIED" := by
  rw [getACL_verdict_eq]; split_ifs <;> simp

/-- The PUT-ACL verdict is always one of the two verdict strings. -/
theorem putACL_verdict_binary (v : Bool) (b : String) (e : PutAclEnv) :
    (checkPutACLWithContext v b e).verdict = "OK" ∨
      (checkPutACLWithContext v b e).verdict = "DENIED" := by
  rw [putACL_verdict_eq]; split_ifs <;> simp

/-- The ANON-GET verdict is always one of the two verdict strings. -/
theorem anonGet_verdict_binary (v : Bool) (b : String) (e : AnonGetEnv) :
    (checkAnonGet v b e).verdict = "OK" ∨ (checkAnonGet v b e).verdict = "DENIED" := by
  rw [anonGet_verdict_eq]; split_ifs <;> simp

/-- The AUTH-GET verdict is always one of the two verdict strings. -/
theorem authGet_verdict_binary (v : Bool) (b : String) (e : AuthGetEnv) :
    (checkAuthGet v b e).verdict = "OK" ∨ (checkAuthGet v b e).verdict = "DENIED" := by
  rw [authGet_verdict_eq]; split_ifs <;> simp

/-- The ANON-WRITE verdict is always one of the two verdict strings. -/
theorem anonWrite_verdict_binary (v : Bool) (b : String) (e : AnonWriteEnv) :
    (checkAnonWrite v b e).verdict = "OK" ∨ (checkAnonWrite v b e).verdict = "DENIED" := by
  rw [anonWrite_verdict_eq]; split_ifs <;> simp

/-- The AUTH-WRITE verdict is always one of the two verdict strings. -/
theorem authWrite_verdict_binary (v : Bool) (b : String) (e : AuthWriteEnv) :
    (checkAuthWrite v b e).verdict = "OK" ∨ (checkAuthWrite v b e).verdict = "DENIED" := by
  rw [authWrite_verdict_eq]; split_ifs <;> simp

/-- The ANON-DEL verdict is always one of the two verdict strings. -/
theorem anonDel_verdict_binary (v : Bool) (b : String) (e : AnonDelEnv) :
    (checkAnonDel v b e).verdict = "OK" ∨ (checkAnonDel v b e).verdict = "DENIED" := by
  rw [anonDel_verdict_eq]; split_ifs <;> simp

/-- The AUTH-DEL verdict is always one of the two verdict strings. -/
theorem authDel_verdict_binary (v : Bool) (b : String) (e : AuthDelEnv) :
    (checkAuthDel v b e).verdict = "OK" ∨ (checkAuthDel v b e).verdict = "DENIED" := by
  rw [authDel_verdict_eq]; split_ifs <;> simp

/-- Filtering the index-paired list by a predicate on the entries preserves
the filtered length. -/
theorem length_filter_enumFrom (q : String → Bool) :
    ∀ (l : List String) (i : Nat),
      ((List.enumFrom i l).filter (fun p => q p.2)).length = (l.filter q).length
  | [], _ => rfl
  | b :: rest, i => by
    simp only [List.enumFrom, List.filter_cons]
    by_cases h : q b <;> simp [h, length_filter_enumFrom q rest (i + 1)]

/-- Claim C1: every `BucketResult` handed to the sink by `CheckBucketsStream`
has all eight verdict fields populated, each exactly one of the two verdict
values `"OK"` (ALLOWED) or `"DENIED"` — never unset, never a third value. -/
theorem C1_emitted_result_verdicts_binary
    (verbose : Bool) (envOf : Nat → BucketEnvs) (names : List String) (r : BucketResult)
    (h : DriverEvent.emit r ∈ (CheckBucketsStream verbose envOf names).1) :
    (r.GetACL = "OK" ∨ r.GetACL = "DENIED") ∧
    (r.PutACL = "OK" ∨ r.PutACL = "DENIED") ∧
    (r.AnonGet = "OK" ∨ r.AnonGet = "DENIED") ∧
    (r.AuthGet = "OK" ∨ r.AuthGet = "DENIED") ∧
    (r.AnonWrite = "OK" ∨ r.AnonWrite = "DENIED") ∧
    (r.AuthWrite = "OK" ∨ r.AuthWrite = "DENIED") ∧
    (r.AnonDel = "OK" ∨ r.AnonDel = "DENIED") ∧
    (r.AuthDel = "OK" ∨ r.AuthDel = "DENIED") := by
  obtain ⟨j, name, rfl⟩ := emit_mem_exists verbose envOf names r h
  exact ⟨getACL_verdict_binary verbose name _, putACL_verdict_binary verbose name _,
    anonGet_verdict_binary verbose name _, authGet_verdict_binary verbose name _,
    anonWrite_verdict_binary verbose name _, authWrite_verdict_binary verbose name _,
    anonDel_verdict_binary verbose name _, authDel_verdict_binary verbose name _⟩

/-- Witness for C1 at the one-bucket input `["b"]` with every step succeeding. -/
theorem C1_emitted_result_verdicts_binary_witness :
    ((checkBucket true "b" allOkEnvs).GetACL = "OK" ∨
      (checkBucket true "b" allOkEnvs).GetACL = "DENIED") ∧
    ((checkBucket true "b" allOkEnvs).PutACL = "OK" ∨
      (checkBucket true "b" allOkEnvs).PutACL = "DENIED") ∧
    ((checkBucket true "b" allOkEnvs).AnonGet = "OK" ∨
      (checkBucket true "b" allOkEnvs).AnonGet = "DENIED") ∧
    ((checkBucket true "b" allOkEnvs).AuthGet = "OK" ∨
      (checkBucket true "b" allOkEnvs).AuthGet = "DENIED") ∧
    ((checkBucket true "b" allOkEnvs).AnonWrite = "OK" ∨
      (checkBucket true "b" allOkEnvs).AnonWrite = "DENIED") ∧
    ((checkBucket true "b" allOkEnvs).AuthWrite = "OK" ∨
      (checkBucket true "b" allOkEnvs).AuthWrite = "DENIED") ∧
    ((checkBucket true "b" allOkEnvs).AnonDel = "OK" ∨
      (checkBucket true "b" allOkEnvs).AnonDel = "DENIED") ∧
    ((checkBucket true "b" allOkEnvs).AuthDel = "OK" ∨
      (checkBucket true "b" allOkEnvs).AuthDel = "DENIED") :=
  C1_emitted_result_verdicts_binary true (fun _ => allOkEnvs) ["b"]
    (checkBucket true "b" allOkEnvs) (by decide)

/-- Claim C2: for each anonymous check (ANON-GET, ANON-WRITE, ANON-DEL), if the
public-access-block fetch succeeds and any flag is set, the check returns
DENIED having attempted only the public-access-block fetch (no subsequent
anonymous operation); and an ALLOWED verdict always comes with the live
anonymous operation attempted, so the pre-check branch alone never yields
ALLOWED. -/
theorem C2_pab_short_circuit
    (verbose : Bool) (b : String) (eg : AnonGetEnv) (ew : AnonWriteEnv) (ed : AnonDelEnv) :
    (eg.pab.ok = true → pabBlocked eg.pab.output = true →
      (checkAnonGet verbose b eg).verdict = "DENIED" ∧
      (checkAnonGet verbose b eg).actions = [S3Action.getPublicAccessBlock]) ∧
    ((checkAnonGet verbose b eg).verdict = "OK" →
      S3Action.headObjectAnon ∈ (checkAnonGet verbose b eg).actions) ∧
    (ew.pab.ok = true → pabBlocked ew.pab.output = true →
      (checkAnonWrite verbose b ew).verdict = "DENIED" ∧
      (checkAnonWrite verbose b ew).actions = [S3Action.getPublicAccessBlock]) ∧
    ((checkAnonWrite verbose b ew).verdict = "OK" →
      S3Action.putObjectAnon ∈ (checkAnonWrite verbose b ew).actions) ∧
    (ed.pab.ok = true → pabBlocked ed.pab.output = true →
      (checkAnonDel verbose b ed).verdict = "DENIED" ∧
      (checkAnonDel verbose b ed).actions = [S3Action.getPublicAccessBlock]) ∧
    ((checkAnonDel verbose b ed).verdict = "OK" →
      S3Action.deleteObjectAnon ∈ (checkAnonDel verbose b ed).actions) := by
  refine ⟨fun h1 h2 => ?_, ?_, fun h1 h2 => ?_, ?_, fun h1 h2 => ?_, ?_⟩
  · unfold checkAnonGet; simp [h1, h2]
  · unfold checkAnonGet; split_ifs <;> simp_all [checkBucketPolicyForAnonGet]
  · unfold checkAnonWrite; simp [h1, h2]
  · unfold checkAnonWrite; split_ifs <;> simp_all
  · unfold checkAnonDel; simp [h1, h2]
  · unfold checkAnonDel; split_ifs <;> simp_all

/-- Witness for C2: with every public-access-block flag response set, ANON-GET
short-circuits to DENIED after the pre-check only. -/
theorem C2_pab_short_circuit_witness :
    (checkAnonGet true "b" blockedAnonGetEnv).verdict = "DENIED" ∧
    (checkAnonGet true "b" blockedAnonGetEnv).actions = [S3Action.getPublicAccessBlock] :=
  (C2_pab_short_circuit true "b" blockedAnonGetEnv blockedAnonWriteEnv
    blockedAnonDelEnv).1 (by decide) (by decide)

/-- Claim C3: for both GET checks, a probe failure whose output carries a
not-found signal yields ALLOWED (never DENIED), and one carrying an
authorization-denied signal (and no not-found signal, the code testing
not-found first) yields DENIED; for ANON-GET this concerns probes actually
reaching the anonymous read, i.e. not short-circuited by the
public-access-block pre-check. -/
theorem C3_get_checks_classification
    (verbose : Bool) (b : String) (ea : AuthGetEnv) (eg : AnonGetEnv) :
    (ea.headObj.ok = false → isNotFound ea.headObj.output = true →
      (checkAuthGet verbose b ea).verdict = "OK") ∧
    (ea.headObj.ok = false → isNotFound ea.headObj.output = false →
      isAccessDenied ea.headObj.output = true →
      (checkAuthGet verbose b ea).verdict = "DENIED") ∧
    ((eg.pab.ok && pabBlocked eg.pab.output) = false →
      eg.headObj.ok = false → isNotFound eg.headObj.output = true →
      (checkAnonGet verbose b eg).verdict = "OK") ∧
    ((eg.pab.ok && pabBlocked eg.pab.output) = false →
      eg.headObj.ok = false → isNotFound eg.headObj.output = false →
      isAccessDenied eg.headObj.output = true →
      (checkAnonGet verbose b eg).verdict = "DENIED") := by
  refine ⟨fun h1 h2 => ?_, fun h1 h2 h3 => ?_, fun h0 h1 h2 => ?_, fun h0 h1 h2 h3 => ?_⟩
  · rw [authGet_verdict_eq]; simp [h1, h2]
  · rw [authGet_verdict_eq]; simp [h1, h2, h3]
  · rw [anonGet_verdict_eq]; simp [h0, h1, h2]
  · rw [anonGet_verdict_eq]; simp [h0, h1, h2, h3]

/-- Witness for C3: an authenticated HEAD failing with `404 Not Found` is
classified ALLOWED. -/
theorem C3_get_checks_classification_witness :
    (checkAuthGet true "b" notFoundAuthGetEnv).verdict = "OK" :=
  (C3_get_checks_classification true "b" notFoundAuthGetEnv fallbackAnonGetEnv).1
    (by decide) (by decide)

/-- Claim C4: when the anonymous read of ANON-GET fails with an error that is
neither not-found nor authorization-denied, the check falls back to the bucket
policy fetch: with the policy fetched, the verdict is ALLOWED exactly when the
policy text contains a wildcard-principal grant together with a get-object
action pattern, else DENIED; and a failed policy fetch yields DENIED. -/
theorem C4_anonGet_policy_fallback
    (verbose : Bool) (b : String) (e : AnonGetEnv)
    (hsc : (e.pab.ok && pabBlocked e.pab.output) = false)
    (hh : e.headObj.ok = false)
    (hnf : isNotFound e.headObj.output = false)
    (had : isAccessDenied e.headObj.output = false) :
    S3Action.getBucketPolicy ∈ (checkAnonGet verbose b e).actions ∧
    (e.policy.ok = true →
      (checkAnonGet verbose b e).verdict =
        if policyAllowsAnonGet e.policy.output then "OK" else "DENIED") ∧
    (e.policy.ok = false → (checkAnonGet verbose b e).verdict = "DENIED") := by
  refine ⟨?_, fun hp => ?_, fun hp => ?_⟩
  · unfold checkAnonGet
    simp only [hsc, hh]
    simp [hnf, had, checkBucketPolicyForAnonGet]
    split_ifs <;> simp
  · rw [anonGet_verdict_eq]; simp [hsc, hh, hnf, had, hp]
  · rw [anonGet_verdict_eq]; simp [hsc, hh, hnf, had, hp]

/-- Witness for C4: a timed-out anonymous read with a wildcard-principal
get-object policy is classified through the fallback as ALLOWED. -/
theorem C4_anonGet_policy_fallback_witness :
    S3Action.getBucketPolicy ∈ (checkAnonGet true "b" fallbackAnonGetEnv).actions ∧
    (checkAnonGet true "b" fallbackAnonGetEnv).verdict =
      if policyAllowsAnonGet fallbackAnonGetEnv.policy.output then "OK" else "DENIED" :=
  ⟨(C4_anonGet_policy_fallback true "b" fallbackAnonGetEnv
      (by decide) (by decide) (by decide) (by decide)).1,
   (C4_anonGet_policy_fallback true "b" fallbackAnonGetEnv
      (by decide) (by decide) (by decide) (by decide)).2.1 (by decide)⟩

/-- Claim C5: the sink is invoked exactly once per identifier that is
non-empty after trimming, in input order (skipped identifiers produce no
result); in particular `["  ", "bucket-a", ""]` yields exactly the one result
for `bucket-a`. -/
theorem C5_sink_once_per_nonempty_in_order :
    (∀ (verbose : Bool) (envOf : Nat → BucketEnvs) (names : List String),
      emittedResults (CheckBucketsStream verbose envOf names).1 =
        ((names.enum).filter (fun p => !(goTrim p.2 == ""))).map
          (fun p => checkBucket verbose (goTrim p.2) (envOf p.1))) ∧
    (∀ (verbose : Bool) (envOf : Nat → BucketEnvs),
      (emittedResults (CheckBucketsStream verbose envOf ["  ", "bucket-a", ""]).1).map
        BucketResult.BucketName = ["bucket-a"]) := by
  constructor
  · intro verbose envOf names
    rw [show (CheckBucketsStream verbose envOf names).1
          = streamAux verbose envOf names.length 0 names from rfl,
        emittedResults_streamAux]
    rfl
  · intro verbose envOf
    have h1 : goTrim "  " = "" := by decide
    have h2 : goTrim "bucket-a" = "bucket-a" := by decide
    have h3 : goTrim "" = "" := by decide
    simp [CheckBucketsStream, streamAux, emittedResults, h1, h2, h3, checkBucket]

/-- Claim C6: in ANON-DEL, once the pre-check falls through and the payload is
staged, a failed authenticated creation of the test object yields DENIED with
no anonymous delete attempted; and a failed anonymous delete after a
successful creation is followed by the best-effort authenticated cleanup
delete before the check returns DENIED. -/
theorem C6_anonDel_create_fail_and_cleanup
    (verbose : Bool) (b : String) (e : AnonDelEnv)
    (hsc : (e.pab.ok && pabBlocked e.pab.output) = false)
    (hw : e.writeTmp.ok = true) :
    (e.putObj.ok = false →
      (checkAnonDel verbose b e).verdict = "DENIED" ∧
      S3Action.deleteObjectAnon ∉ (checkAnonDel verbose b e).actions) ∧
    (e.putObj.ok = true → e.delObj.ok = false →
      (checkAnonDel verbose b e).verdict = "DENIED" ∧
      (checkAnonDel verbose b e).actions =
        [S3Action.getPublicAccessBlock, S3Action.putObjectAuth,
         S3Action.deleteObjectAnon, S3Action.deleteObjectAuth]) := by
  unfold checkAnonDel
  refine ⟨fun hp => ?_, fun hp hd => ?_⟩
  · simp [hsc, hw, hp]
  · simp only [hsc, hw, hp, hd]
    split_ifs <;> simp_all

/-- Witness for C6: with the creation of the test object failing, ANON-DEL is
DENIED and no anonymous delete is attempted. -/
theorem C6_anonDel_create_fail_and_cleanup_witness :
    (checkAnonDel true "b" createFailAnonDelEnv).verdict = "DENIED" ∧
    S3Action.deleteObjectAnon ∉ (checkAnonDel true "b" createFailAnonDelEnv).actions :=
  (C6_anonDel_create_fail_and_cleanup true "b" createFailAnonDelEnv
    (by decide) (by decide)).1 (by decide)

/-- Claim C7: `CheckBucketsStream` always returns success (`nil`), for every
input and every combination of per-check outcomes, and still emits exactly one
result per non-empty identifier — probe failures are absorbed into verdicts,
never into a driver error, and never stop later buckets. -/
theorem C7_driver_never_errors
    (verbose : Bool) (envOf : Nat → BucketEnvs) (names : List String) :
    (CheckBucketsStream verbose envOf names).2 = none ∧
    (emittedResults (CheckBucketsStream verbose envOf names).1).length =
      (names.filter (fun s => !(goTrim s == ""))).length := by
  refine ⟨rfl, ?_⟩
  rw [show (CheckBucketsStream verbose envOf names).1
        = streamAux verbose envOf names.length 0 names from rfl,
      emittedResults_streamAux, List.length_map]
  exact length_filter_enumFrom (fun s => !(goTrim s == "")) names 0

/-- Claim C8: the driver's event trace consists, for each input entry in
order, of nothing when the trimmed name is empty, and otherwise of the sink
emission followed by the fixed 100 ms inter-bucket sleep exactly when the
entry is not at the last position of the input sequence. -/
theorem C8_inter_bucket_delay
    (verbose : Bool) (envOf : Nat → BucketEnvs) (names : List String) :
    (CheckBucketsStream verbose envOf names).1 =
      (names.enum).flatMap (fun p =>
        if goTrim p.2 = "" then []
        else DriverEvent.emit (checkBucket verbose (goTrim p.2) (envOf p.1)) ::
          (if p.1 < names.length - 1 then [DriverEvent.sleepMs 100] else [])) := by
  simpa [List.enum] using streamAux_eq verbose envOf names.length names 0

/-- Claim C9: the verbose flag never changes any computed verdict — each of
the eight checks returns the same verdict with verbose on as with verbose off,
for every bucket and every fixed set of external responses. -/
theorem C9_verbose_independence
    (b : String) (e1 : GetAclEnv) (e2 : PutAclEnv) (e3 : AnonGetEnv) (e4 : AuthGetEnv)
    (e5 : AnonWriteEnv) (e6 : AuthWriteEnv) (e7 : AnonDelEnv) (e8 : AuthDelEnv) :
    (checkGetACLWithContext true b e1).verdict = (checkGetACLWithContext false b e1).verdict ∧
    (checkPutACLWithContext true b e2).verdict = (checkPutACLWithContext false b e2).verdict ∧
    (checkAnonGet true b e3).verdict = (checkAnonGet false b e3).verdict ∧
    (checkAuthGet true b e4).verdict = (checkAuthGet false b e4).verdict ∧
    (checkAnonWrite true b e5).verdict = (checkAnonWrite false b e5).verdict ∧
    (checkAuthWrite true b e6).verdict = (checkAuthWrite false b e6).verdict ∧
    (checkAnonDel true b e7).verdict = (checkAnonDel false b e7).verdict ∧
    (checkAuthDel true b e8).verdict = (checkAuthDel false b e8).verdict := by
  simp [getACL_verdict_eq, putACL_verdict_eq, anonGet_verdict_eq, authGet_verdict_eq,
        anonWrite_verdict_eq, authWrite_verdict_eq, anonDel_verdict_eq, authDel_verdict_eq]

/-- Claim C10: in the four checks with no not-found special case (GET-ACL,
PUT-ACL, AUTH-WRITE, AUTH-DEL), the AccessDenied/403/Forbidden error-text test
is redundant — each check's verdict is observably ALLOWED iff every sub-step
of the check succeeded, regardless of error text. -/
theorem C10_error_text_redundant
    (verbose : Bool) (b : String) (e1 : GetAclEnv) (e2 : PutAclEnv)
    (e6 : AuthWriteEnv) (e8 : AuthDelEnv) :
    (checkGetACLWithContext verbose b e1).verdict = specAllStepsOkVerdict [e1.getAcl.ok] ∧
    (checkPutACLWithContext verbose b e2).verdict =
      specAllStepsOkVerdict [e2.getAcl.ok, e2.writeTmp.ok, e2.putAcl.ok] ∧
    (checkAuthWrite verbose b e6).verdict =
      specAllStepsOkVerdict [e6.writeTmp.ok, e6.putObj.ok] ∧
    (checkAuthDel verbose b e8).verdict =
      specAllStepsOkVerdict [e8.writeTmp.ok, e8.putObj.ok, e8.delObj.ok] := by
  simp [getACL_verdict_eq, putACL_verdict_eq, authWrite_verdict_eq, authDel_verdict_eq,
        specAllStepsOkVerdict, Bool.and_assoc]

end S3Check

namespace S3Check

example : goContains "An error occurred (403) Forbidden" "403" = true := by decide

example : goTrim "  " = "" := by decide

example : goTrim " bucket-a " = "bucket-a" := by decide

example :
    (checkAuthGet true "b" { headObj := { ok := false, output := "404 Not Found" } }).verdict
      = "OK" := by decide

example :
    emittedResults (CheckBucketsStream false (fun _ => allOkEnvs) ["  ", "bucket-a", ""]).1
      = [checkBucket false "bucket-a" allOkEnvs] := by decide

example :
    (CheckBucketsStream false (fun _ => allOkEnvs) ["a", "b"]).1
      = [DriverEvent.emit (checkBucket false "a" allOkEnvs), DriverEvent.sleepMs 100,
         DriverEvent.emit (checkBucket false "b" allOkEnvs)] := by decide

end S3Check
